import Mathlib

/-
Verification of the coefplot_py coefficient-plot library.

The development shallowly embeds src/coefplot_py/tools.py:
  * machine floats are modelled as rationals,
  * Python strings are modelled as List Char,
  * matplotlib is treated as an opaque canvas: drawing calls are recorded as
    a trace of DrawCmd values,
  * Python exceptions are modelled with Except String,
  * scipy.stats.norm.ppf is an opaque external function passed as a parameter.
-/

namespace CoefPlot

/-! Generic helpers mirroring Python iteration primitives. -/

/-- Simultaneous iteration over three sequences, truncating at the shortest,
as Python zip does. -/
def zip3 {α β γ : Type} : List α → List β → List γ → List (α × β × γ)
  | a :: as, b :: bs, c :: cs => (a, b, c) :: zip3 as bs cs
  | _, _, _ => []

/-- Simultaneous iteration over four sequences, truncating at the shortest,
as Python zip does. -/
def zip4 {α β γ δ : Type} : List α → List β → List γ → List δ → List (α × β × γ × δ)
  | a :: as, b :: bs, c :: cs, d :: ds => (a, b, c, d) :: zip4 as bs cs ds
  | _, _, _, _ => []

/-- Componentwise closeness of two rational vectors within a tolerance. -/
def withinTol (tol : ℚ) (xs ys : List ℚ) : Bool :=
  xs.length == ys.length && (xs.zip ys).all (fun p => decide (|p.1 - p.2| ≤ tol))

/-! The numeric interval calculator: CoefPlot._get_z_score
(src/coefplot_py/tools.py lines 529-543). -/

/-- Branch of _get_z_score taken when scipy is importable: with alpha = 1 -
level/100 it returns stats.norm.ppf (1 - alpha/2).  The external quantile
function ppf is an opaque parameter. -/
def getZScorePrecise (ppf : ℚ → ℚ) (level : ℚ) : ℚ :=
  ppf (1 - (1 - level / 100) / 2)

/-- Branch of _get_z_score taken when scipy is unavailable: a dictionary of
common z-scores, then a crude default together with a warning.  The Bool
records whether the degraded-precision warning was emitted. -/
def getZScoreFallback (level : ℚ) : ℚ × Bool :=
  if level = 90 then (1645/1000, false)
  else if level = 95 then (196/100, false)
  else if level = 99 then (2576/1000, false)
  else if level = 999/10 then (3291/1000, false)
  else (if level ≥ 95 then 196/100 else 1645/1000, true)

/-! Confidence-interval resolution at the top of CoefPlot.plot
(src/coefplot_py/tools.py lines 187-196). -/

/-- Resolution of the interval bounds in CoefPlot.plot: if either explicit
bound is missing, both bounds are recomputed from the standard errors using
the z-score; missing standard errors raise ValueError. -/
def resolveCI (ppf : ℚ → ℚ) (ciLevel : ℚ) (coefs : List ℚ)
    (ses ciLower ciUpper : Option (List ℚ)) : Except String (List ℚ × List ℚ) :=
  match ciLower, ciUpper with
  | some l, some u => Except.ok (l, u)
  | _, _ =>
    match ses with
    | none => Except.error "Must provide either (ci_lower, ci_upper) or ses"
    | some s =>
      let z := getZScorePrecise ppf ciLevel
      Except.ok (coefs.zipWith (fun c e => c - z * e) s,
                 coefs.zipWith (fun c e => c + z * e) s)

/-! The label formatter: CoefPlot._format_latex_label
(src/coefplot_py/tools.py lines 251-284). -/

/-- Whitespace characters stripped by Python str.strip. -/
def pyStripChars : List Char := [' ', '\t', '\n', '\r', '\x0b', '\x0c']

/-- Model of Python str.strip: remove leading and trailing whitespace. -/
def pyStrip (s : List Char) : List Char :=
  ((s.dropWhile (· ∈ pyStripChars)).reverse.dropWhile (· ∈ pyStripChars)).reverse

/-- Model of Python str.startswith on a single character. -/
def startsWithCh (c : Char) : List Char → Bool
  | [] => false
  | x :: _ => x = c

/-- Model of Python str.endswith on a single character. -/
def endsWithCh (c : Char) (s : List Char) : Bool :=
  startsWithCh c s.reverse

/-- Characters that trigger the math-mode branch of _format_latex_label. -/
def mathSpecials : List Char := ['_', '^', '\x7b', '\x7d', '\\']

/-- Characters escaped by the final loop of _format_latex_label, in the
order the loop visits them. -/
def escapeChars : List Char := ['#', '$', '%', '&', '~', '^', '\\']

/-- Model of Python str.replace for a single-character pattern. -/
def replaceChar (c : Char) (r : List Char) (s : List Char) : List Char :=
  s.flatMap (fun x => if x = c then r else [x])

/-- One pass of the escaping loop: prefix a backslash to every occurrence of
c, provided c occurs and the current text does not start with a dollar. -/
def escapeStep (s : List Char) (c : Char) : List Char :=
  if s.contains c && !startsWithCh '$' s then replaceChar c ['\\', c] s else s

/-- The full escaping loop over escapeChars (note that the backslash pass
runs last, so backslashes introduced by earlier passes are escaped again). -/
def escapeSpecials (s : List Char) : List Char :=
  escapeChars.foldl escapeStep s

/-- Model of Python str.split on a single character: the list of chunks
between occurrences of c; the empty string yields one empty chunk. -/
def splitOnChar (c : Char) : List Char → List (List Char)
  | [] => [[]]
  | x :: xs =>
    let r := splitOnChar c xs
    if x = c then [] :: r
    else
      match r with
      | [] => [[x]]
      | ys :: rest => (x :: ys) :: rest

/-- Join of a two-chunk split into the math-mode subscript produced by
_format_latex_label; other shapes are unused and map to the empty string. -/
def subscriptJoin : List (List Char) → List Char
  | [p0, p1] => '$' :: (p0 ++ '_' :: '\x7b' :: (p1 ++ ['\x7d', '$']))
  | _ => []

/-- Model of CoefPlot._format_latex_label.  The latexAvailable flag models
the module-level LATEX_AVAILABLE capability probe. -/
def formatLatexLabel (latexAvailable : Bool) (text : List Char) : List Char :=
  if text = [] then []
  else if !latexAvailable then text
  else if startsWithCh '$' (pyStrip text) && endsWithCh '$' (pyStrip text) then text
  else
    match splitOnChar '_' text,
          text.any (· ∈ mathSpecials) && text.contains '_' && !startsWithCh '$' text with
    | [p0, p1], true => '$' :: (p0 ++ '_' :: '\x7b' :: (p1 ++ ['\x7d', '$']))
    | _, _ => escapeSpecials text

/-! Style arguments and the drawing trace. -/

/-- A style argument as accepted by CoefPlot.plot: omitted, a single scalar
string (broadcast), or a positional sequence. -/
inductive StyleArg : Type
  | omitted : StyleArg
  | scalar (s : String) : StyleArg
  | seq (l : List String) : StyleArg
deriving DecidableEq, Repr

/-- The ci_colors value as seen inside _plot_horizontal / _plot_vertical:
either Python None, a scalar, or an indexable sequence. -/
inductive CiColorsR : Type
  | pynone : CiColorsR
  | scalar (s : String) : CiColorsR
  | seq (l : List String) : CiColorsR
deriving DecidableEq, Repr

/-- Evaluation of the expression
ci_colors[i] if isinstance(ci_colors, (list, np.ndarray)) else ci_colors
including the IndexError a too-short sequence raises. -/
def ciColorAt : CiColorsR → Nat → Except String (Option String)
  | CiColorsR.pynone, _ => Except.ok none
  | CiColorsR.scalar s, _ => Except.ok (some s)
  | CiColorsR.seq l, i =>
    if h : i < l.length then Except.ok (some (l.get ⟨i, h⟩))
    else Except.error "list index out of range"

/-- Default color cycle plt.cm.tab10(np.linspace(0, 1, n)): an opaque
sequence of n colors. -/
def defaultColors (n : Nat) : List String :=
  (List.range n).map (fun i => "tab10-" ++ toString i)

/-- Model of np.arange(n) as used for categorical positions. -/
def arangeQ (n : Nat) : List ℚ :=
  (List.range n).map Nat.cast

/-- Style resolution at the top of _plot_single (tools.py lines 294-307):
omitted colors become the default cycle, scalar strings are broadcast, and
omitted ci_colors default to the resolved colors. -/
def resolveStylesSingle (n : Nat) (colors markers ciColors : StyleArg) :
    List String × List String × CiColorsR :=
  let cs := match colors with
    | StyleArg.omitted => defaultColors n
    | StyleArg.scalar s => List.replicate n s
    | StyleArg.seq l => l
  let ms := match markers with
    | StyleArg.omitted => List.replicate n "o"
    | StyleArg.scalar s => List.replicate n s
    | StyleArg.seq l => l
  let cc := match ciColors with
    | StyleArg.omitted => CiColorsR.seq cs
    | StyleArg.scalar s => CiColorsR.scalar s
    | StyleArg.seq l => CiColorsR.seq l
  (cs, ms, cc)

/-- One recorded call to the opaque canvas API. -/
inductive DrawCmd : Type
  | seg (x1 y1 x2 y2 : ℚ) (color : Option String)
  | barh (y width left height : ℚ) (color : Option String)
  | barv (x height bottom width : ℚ) (color : Option String)
  | marker (x y size : ℚ) (color markerStyle : String)
  | vline (x : ℚ)
  | hline (y : ℚ)
  | gridOn (axis : String)
  | invertY
deriving DecidableEq, Repr

/-- The ci_style == "line" loop of _plot_horizontal: per record, the main
segment plus two end caps, with the color fetched by position. -/
def ciLineLoopH (cc : CiColorsR) (w : ℚ) :
    Nat → List (ℚ × ℚ × ℚ) → Except String (List DrawCmd)
  | _, [] => Except.ok []
  | i, (y, ll, ul) :: rest =>
    match ciColorAt cc i with
    | Except.error e => Except.error e
    | Except.ok c =>
      match ciLineLoopH cc w (i + 1) rest with
      | Except.error e => Except.error e
      | Except.ok cmds =>
        Except.ok (DrawCmd.seg ll y ul y c ::
                   DrawCmd.seg ll (y - w/2) ll (y + w/2) c ::
                   DrawCmd.seg ul (y - w/2) ul (y + w/2) c :: cmds)

/-- The ci_style == "bar" loop of _plot_horizontal. -/
def ciBarLoopH (cc : CiColorsR) (w : ℚ) :
    Nat → List (ℚ × ℚ × ℚ) → Except String (List DrawCmd)
  | _, [] => Except.ok []
  | i, (y, ll, ul) :: rest =>
    match ciColorAt cc i with
    | Except.error e => Except.error e
    | Except.ok c =>
      match ciBarLoopH cc w (i + 1) rest with
      | Except.error e => Except.error e
      | Except.ok cmds => Except.ok (DrawCmd.barh y (ul - ll) ll w c :: cmds)

/-- The ci_style == "line" loop of _plot_vertical. -/
def ciLineLoopV (cc : CiColorsR) (w : ℚ) :
    Nat → List (ℚ × ℚ × ℚ) → Except String (List DrawCmd)
  | _, [] => Except.ok []
  | i, (x, ll, ul) :: rest =>
    match ciColorAt cc i with
    | Except.error e => Except.error e
    | Except.ok c =>
      match ciLineLoopV cc w (i + 1) rest with
      | Except.error e => Except.error e
      | Except.ok cmds =>
        Except.ok (DrawCmd.seg x ll x ul c ::
                   DrawCmd.seg (x - w/2) ll (x + w/2) ll c ::
                   DrawCmd.seg (x - w/2) ul (x + w/2) ul c :: cmds)

/-- The ci_style == "bar" loop of _plot_vertical. -/
def ciBarLoopV (cc : CiColorsR) (w : ℚ) :
    Nat → List (ℚ × ℚ × ℚ) → Except String (List DrawCmd)
  | _, [] => Except.ok []
  | i, (x, ll, ul) :: rest =>
    match ciColorAt cc i with
    | Except.error e => Except.error e
    | Except.ok c =>
      match ciBarLoopV cc w (i + 1) rest with
      | Except.error e => Except.error e
      | Except.ok cmds => Except.ok (DrawCmd.barv x (ul - ll) ll w c :: cmds)

/-- The scatter loop of _plot_horizontal: Python zip truncates at the
shortest of y_pos, coefs, colors, markers. -/
def markerLoopH (markerSize : ℚ) (quads : List (ℚ × ℚ × String × String)) :
    List DrawCmd :=
  quads.map (fun q => DrawCmd.marker q.2.1 q.1 (markerSize ^ 2) q.2.2.1 q.2.2.2)

/-- The scatter loop of _plot_vertical. -/
def markerLoopV (markerSize : ℚ) (quads : List (ℚ × ℚ × String × String)) :
    List DrawCmd :=
  quads.map (fun q => DrawCmd.marker q.1 q.2.1 (markerSize ^ 2) q.2.2.1 q.2.2.2)

/-- Body of _plot_horizontal for a resolved ci_style (tools.py lines
348-388): an unknown style draws no interval glyphs at all. -/
def plotHorizontalCore (ciStyle : String) (coefs ciL ciU yPos : List ℚ)
    (colors markers : List String) (markerSize ciWidth : ℚ) (cc : CiColorsR)
    (zeroLine grid : Bool) : Except String (List DrawCmd) :=
  match (if ciStyle = "line" then ciLineLoopH cc ciWidth 0 (zip3 yPos ciL ciU)
         else if ciStyle = "bar" then ciBarLoopH cc ciWidth 0 (zip3 yPos ciL ciU)
         else Except.ok []) with
  | Except.error e => Except.error e
  | Except.ok ciCmds =>
    Except.ok (ciCmds ++ markerLoopH markerSize (zip4 yPos coefs colors markers) ++
               (if zeroLine then [DrawCmd.vline 0] else []) ++
               (if grid then [DrawCmd.gridOn "x"] else []) ++
               [DrawCmd.invertY])

/-- Model of CoefPlot._plot_horizontal; the ci_style == "area" branch calls
itself again with "line". -/
def plotHorizontal (ciStyle : String) (coefs ciL ciU yPos : List ℚ)
    (colors markers : List String) (markerSize ciWidth : ℚ) (cc : CiColorsR)
    (zeroLine grid : Bool) : Except String (List DrawCmd) :=
  plotHorizontalCore (if ciStyle = "area" then "line" else ciStyle)
    coefs ciL ciU yPos colors markers markerSize ciWidth cc zeroLine grid

/-- Body of _plot_vertical for a resolved ci_style (tools.py lines
390-427). -/
def plotVerticalCore (ciStyle : String) (coefs ciL ciU yPos : List ℚ)
    (colors markers : List String) (markerSize ciWidth : ℚ) (cc : CiColorsR)
    (zeroLine grid : Bool) : Except String (List DrawCmd) :=
  match (if ciStyle = "line" then ciLineLoopV cc ciWidth 0 (zip3 yPos ciL ciU)
         else if ciStyle = "bar" then ciBarLoopV cc ciWidth 0 (zip3 yPos ciL ciU)
         else Except.ok []) with
  | Except.error e => Except.error e
  | Except.ok ciCmds =>
    Except.ok (ciCmds ++ markerLoopV markerSize (zip4 yPos coefs colors markers) ++
               (if zeroLine then [DrawCmd.hline 0] else []) ++
               (if grid then [DrawCmd.gridOn "y"] else []))

/-- Model of CoefPlot._plot_vertical; the ci_style == "area" branch calls
itself again with "line". -/
def plotVertical (ciStyle : String) (coefs ciL ciU yPos : List ℚ)
    (colors markers : List String) (markerSize ciWidth : ℚ) (cc : CiColorsR)
    (zeroLine grid : Bool) : Except String (List DrawCmd) :=
  plotVerticalCore (if ciStyle = "area" then "line" else ciStyle)
    coefs ciL ciU yPos colors markers markerSize ciWidth cc zeroLine grid

/-- Outcome of one _plot_single call.  figClosed records whether plt.close
ran on the exit path taken (the figure itself stays referenced by the
plotter object in self.fig). -/
structure SingleResult : Type where
  draws : List DrawCmd
  yticks : List ℚ
  tickLabels : List (List Char)
  xlabelSet : List Char
  ylabelSet : List Char
  titleSet : List Char
  limitsSet : Option (ℚ × ℚ)
  saved : Bool
  figClosed : Bool
deriving DecidableEq, Repr

/-- Default value-axis caption used when no axis label is supplied. -/
def coefCaption : List Char := "Coefficient".toList

/-- Model of CoefPlot._plot_single (tools.py lines 286-346).  An error value
models a Python exception escaping the call after the figure was created,
in which case the close call at the end never runs. -/
def plotSingle (latexAv horizontal : Bool) (coefs ciL ciU : List ℚ)
    (labels : List (List Char)) (title xlabel ylabel : List Char)
    (xlim : Option (ℚ × ℚ)) (colors markers ciColors : StyleArg)
    (markerSize ciWidth : ℚ) (ciStyle : String) (zeroLine grid : Bool)
    (savepath : Option (List Char)) (showFlag : Bool) :
    Except String SingleResult :=
  let n := coefs.length
  let r := resolveStylesSingle n colors markers ciColors
  let yPos := arangeQ n
  match (if horizontal then
           plotHorizontal ciStyle coefs ciL ciU yPos r.1 r.2.1 markerSize
             ciWidth r.2.2 zeroLine grid
         else
           plotVertical ciStyle coefs ciL ciU yPos r.1 r.2.1 markerSize
             ciWidth r.2.2 zeroLine grid) with
  | Except.error e => Except.error e
  | Except.ok draws =>
    Except.ok
    { draws := draws
      yticks := yPos
      tickLabels := labels.map (formatLatexLabel latexAv)
      xlabelSet := formatLatexLabel latexAv
        (if horizontal then (if xlabel = [] then coefCaption else xlabel) else xlabel)
      ylabelSet := formatLatexLabel latexAv
        (if horizontal then ylabel else (if ylabel = [] then coefCaption else ylabel))
      titleSet := formatLatexLabel latexAv title
      limitsSet := xlim
      saved := savepath.isSome
      figClosed := !showFlag }

/-- Whether an Except value is a success. -/
def exceptOk {ε α : Type} : Except ε α → Bool
  | Except.ok _ => true
  | Except.error _ => false

/-- The figClosed flag of a _plot_single outcome; an escaped exception
leaves the figure open. -/
def figClosedOf : Except String SingleResult → Bool
  | Except.ok r => r.figClosed
  | Except.error _ => false

/-- Number of point markers in a draw trace. -/
def countMarkers (cmds : List DrawCmd) : Nat :=
  cmds.countP (fun c => match c with | DrawCmd.marker _ _ _ _ _ => true | _ => false)

/-- Marker count of a successful _plot_single outcome. -/
def markersOf : Except String SingleResult → Option Nat
  | Except.ok r => some (countMarkers r.draws)
  | Except.error _ => none

/-! The multi-group engine: CoefPlot._plot_multiple
(src/coefplot_py/tools.py lines 429-527). -/

/-- Model of np.unique on a string array: the sorted list of distinct
values, in lexicographic (code-point) order. -/
def sortUnique (l : List (List Char)) : List (List Char) :=
  l.dedup.insertionSort (· ≤ ·)

/-- Boolean-mask selection plot_labels == plot_label applied to a parallel
array, as numpy fancy indexing does. -/
def maskBy {α : Type} (pls : List (List Char)) (xs : List α) (g : List Char) :
    List α :=
  ((pls.zip xs).filter (fun p => p.1 = g)).map (fun p => p.2)

/-- One sub-canvas produced by _plot_multiple: its group label, recorded
draw calls, tick labels, the axis labels actually set on it, and its
title. -/
structure Panel : Type where
  group : List Char
  draws : Except String (List DrawCmd)
  yticks : List ℚ
  tickLabels : List (List Char)
  xlabelSet : Option (List Char)
  ylabelSet : Option (List Char)
  limitsSet : Option (ℚ × ℚ)
  titleSet : List Char
deriving Repr

/-- Separator placed between the overall title and the group name in a
per-panel title. -/
def dashSep : List Char := " - ".toList

/-- Body of the per-group loop of _plot_multiple for the panel at position
idx showing group g. -/
def buildPanel (latexAv horizontal : Bool) (title xlabel ylabel : List Char)
    (xlim : Option (ℚ × ℚ)) (coefs ciL ciU : List ℚ)
    (labels pls : List (List Char)) (colors markers ciColors : StyleArg)
    (markerSize ciWidth : ℚ) (ciStyle : String) (zeroLine grid : Bool)
    (idx : Nat) (g : List Char) : Panel :=
  let pc := maskBy pls coefs g
  let pl := maskBy pls ciL g
  let pu := maskBy pls ciU g
  let plabels := maskBy pls labels g
  let n := pc.length
  let pcolors := match colors with
    | StyleArg.omitted => defaultColors n
    | StyleArg.scalar s => List.replicate n s
    | StyleArg.seq l => maskBy pls l g
  let pmarkers := match markers with
    | StyleArg.omitted => List.replicate n "o"
    | StyleArg.scalar s => List.replicate n s
    | StyleArg.seq l => maskBy pls l g
  let cc := match ciColors with
    | StyleArg.omitted => CiColorsR.pynone
    | StyleArg.scalar s => CiColorsR.scalar s
    | StyleArg.seq l => CiColorsR.seq l
  let yPos := arangeQ n
  { group := g
    draws :=
      if horizontal then
        plotHorizontal ciStyle pc pl pu yPos pcolors pmarkers markerSize
          ciWidth cc zeroLine grid
      else
        plotVertical ciStyle pc pl pu yPos pcolors pmarkers markerSize
          ciWidth cc zeroLine grid
    yticks := yPos
    tickLabels := plabels.map (formatLatexLabel latexAv)
    xlabelSet := some (formatLatexLabel latexAv
      (if horizontal then (if xlabel = [] then coefCaption else xlabel) else xlabel))
    ylabelSet :=
      if idx = 0 then
        some (formatLatexLabel latexAv
          (if horizontal then ylabel else (if ylabel = [] then coefCaption else ylabel)))
      else none
    limitsSet := xlim
    titleSet := formatLatexLabel latexAv
      (if title = [] then g else title ++ dashSep ++ g) }

/-- Iteration of a position-aware panel builder over the group list,
mirroring enumerate(unique_plots). -/
def panelsFrom (f : Nat → List Char → Panel) : Nat → List (List Char) → List Panel
  | _, [] => []
  | i, g :: gs => f i g :: panelsFrom f (i + 1) gs

/-- Outcome of one _plot_multiple call. -/
structure MultiResult : Type where
  grid : Nat × Nat
  panels : List Panel
  suptitle : Option (List Char)
  saved : Bool
  figClosed : Bool
deriving Repr

/-- Model of CoefPlot._plot_multiple: groups are the sorted distinct
plot_labels; more than one group yields a single row of sub-canvases, one
per group. -/
def plotMultiple (latexAv horizontal : Bool) (coefs ciL ciU : List ℚ)
    (labels pls : List (List Char)) (title xlabel ylabel : List Char)
    (xlim : Option (ℚ × ℚ)) (colors markers ciColors : StyleArg)
    (markerSize ciWidth : ℚ) (ciStyle : String) (zeroLine grid : Bool)
    (savepath : Option (List Char)) (showFlag : Bool) : MultiResult :=
  let ups := sortUnique pls
  let n := ups.length
  { grid := if 1 < n then (1, n) else (1, 1)
    panels := panelsFrom
      (buildPanel latexAv horizontal title xlabel ylabel xlim coefs ciL ciU
        labels pls colors markers ciColors markerSize ciWidth ciStyle
        zeroLine grid) 0 ups
    suptitle :=
      if title ≠ [] ∧ n = 1 then some (formatLatexLabel latexAv title) else none
    saved := savepath.isSome
    figClosed := !showFlag }

/-! The plot facade: CoefPlot.plot (src/coefplot_py/tools.py lines
91-249). -/

/-- Default labels synthesized when none are given (tools.py line 179). -/
def defaultLabels (n : Nat) : List (List Char) :=
  (List.range n).map (fun i => ("Coefficient " ++ toString (i + 1)).toList)

/-- Overall result of a plot call: either a single canvas or a row of
sub-canvases. -/
inductive PlotOutput : Type
  | single (r : SingleResult)
  | multi (m : MultiResult)
deriving Repr

/-- Model of CoefPlot.plot: synthesize labels, resolve the confidence
bounds (raising ValueError when neither bounds nor standard errors are
given), then dispatch on plot_labels.  The error value is produced before
any canvas exists, so no drawing happens on that path. -/
def plot (latexAv horizontal : Bool) (ppf : ℚ → ℚ) (ciLevel : ℚ)
    (coefs : List ℚ) (ses ciLower ciUpper : Option (List ℚ))
    (labels plotLabels : Option (List (List Char)))
    (title xlabel ylabel : List Char) (xlim : Option (ℚ × ℚ))
    (colors markers ciColors : StyleArg) (markerSize ciWidth : ℚ)
    (ciStyle : String) (zeroLine grid : Bool) (savepath : Option (List Char))
    (showFlag : Bool) : Except String PlotOutput :=
  let labelsR := match labels with
    | none => defaultLabels coefs.length
    | some ls => ls
  match resolveCI ppf ciLevel coefs ses ciLower ciUpper with
  | Except.error e => Except.error e
  | Except.ok (l, u) =>
    match plotLabels with
    | some pls =>
      Except.ok (PlotOutput.multi
        (plotMultiple latexAv horizontal coefs l u labelsR pls title xlabel
          ylabel xlim colors markers ciColors markerSize ciWidth ciStyle
          zeroLine grid savepath showFlag))
    | none =>
      (plotSingle latexAv horizontal coefs l u labelsR title xlabel ylabel
        xlim colors markers ciColors markerSize ciWidth ciStyle zeroLine
        grid savepath showFlag).map PlotOutput.single

/-! Theorems settling the specification claims. -/

/-- C8: when the precise quantile function is unavailable, the half-width
computation returns the table value for levels 90, 95, 99 and 99.9 without
warning; for every other level it returns 1.96 if the level is at least 95
and 1.645 otherwise, and emits the non-fatal degraded-precision warning. -/
theorem fallback_table_c8 :
    getZScoreFallback 90 = (1645/1000, false) ∧
    getZScoreFallback 95 = (196/100, false) ∧
    getZScoreFallback 99 = (2576/1000, false) ∧
    getZScoreFallback (999/10) = (3291/1000, false) ∧
    ∀ level : ℚ, level ∉ ([90, 95, 99, 999/10] : List ℚ) →
      getZScoreFallback level =
        (if 95 ≤ level then 196/100 else 1645/1000, true) := by
  refine ⟨by norm_num [getZScoreFallback], by norm_num [getZScoreFallback],
    by norm_num [getZScoreFallback], by norm_num [getZScoreFallback],
    fun level h => ?_⟩
  simp only [List.mem_cons, List.not_mem_nil, or_false, not_or] at h
  obtain ⟨h90, h95, h99, h999⟩ := h
  unfold getZScoreFallback
  rw [if_neg h90, if_neg h95, if_neg h99, if_neg h999]

/-- Witness for C8 at the level 50, which is outside the lookup table. -/
theorem fallback_table_c8_witness :
    (50 : ℚ) ∉ ([90, 95, 99, 999/10] : List ℚ) ∧
    getZScoreFallback 50 = (if (95:ℚ) ≤ 50 then 196/100 else 1645/1000, true) :=
  ⟨by norm_num [List.mem_cons], fallback_table_c8.2.2.2.2 50 (by norm_num [List.mem_cons])⟩

/-- C7 counterexample: _get_z_score performs no domain validation, so
levels outside (0, 100) do not fail; the fallback branch simply returns the
crude default together with only the non-fatal warning. -/
theorem zscore_domain_c7_counterexample :
    getZScoreFallback 0 = (1645/1000, true) ∧
    getZScoreFallback 100 = (196/100, true) ∧
    getZScoreFallback (-50) = (1645/1000, true) := by
  refine ⟨by norm_num [getZScoreFallback], by norm_num [getZScoreFallback],
    by norm_num [getZScoreFallback]⟩

/-- C7 amended: the half-width computation accepts every level; for a level
at most 0 or at least 100 the precise branch evaluates the quantile at the
out-of-range probability and the fallback branch returns the crude default
with a warning, and neither branch fails. -/
theorem zscore_domain_c7 (ppf : ℚ → ℚ) (level : ℚ)
    (h : level ≤ 0 ∨ 100 ≤ level) :
    getZScorePrecise ppf level = ppf (1 - (1 - level / 100) / 2) ∧
    getZScoreFallback level =
      (if 95 ≤ level then 196/100 else 1645/1000, true) := by
  refine ⟨rfl, ?_⟩
  have h90 : level ≠ 90 := by rintro rfl; rcases h with h | h <;> norm_num at h
  have h95 : level ≠ 95 := by rintro rfl; rcases h with h | h <;> norm_num at h
  have h99 : level ≠ 99 := by rintro rfl; rcases h with h | h <;> norm_num at h
  have h999 : level ≠ 999/10 := by
    rintro rfl; rcases h with h | h <;> norm_num at h
  unfold getZScoreFallback
  rw [if_neg h90, if_neg h95, if_neg h99, if_neg h999]

/-- Witness for the amended C7 at level 0. -/
theorem zscore_domain_c7_witness :
    getZScorePrecise (fun _ => (0:ℚ)) 0 = (fun _ => (0:ℚ)) (1 - (1 - 0 / 100) / 2) ∧
    getZScoreFallback 0 = (if (95:ℚ) ≤ 0 then 196/100 else 1645/1000, true) :=
  zscore_domain_c7 (fun _ => 0) 0 (Or.inl le_rfl)

/-- C1: when explicit bounds are absent, plot derives ci_lower and ci_upper
as coefs minus and plus z times ses, with z the two-sided normal quantile of the
confidence level; at ci_level 95 the quantile argument is 0.975, and since
the normal quantile there is within 0.001 of 1.96, the documented example
vectors come out within 0.001 of the claimed bounds. -/
theorem ci_from_ses_c1 (ppf : ℚ → ℚ)
    (hz : |ppf (39/40) - 196/100| ≤ 1/1000) :
    (∀ (lvl : ℚ) (coefs ses : List ℚ),
      resolveCI ppf lvl coefs (some ses) none none =
        Except.ok
          (coefs.zipWith (fun c e => c - getZScorePrecise ppf lvl * e) ses,
           coefs.zipWith (fun c e => c + getZScorePrecise ppf lvl * e) ses)) ∧
    getZScorePrecise ppf 95 = ppf (39/40) ∧
    |getZScorePrecise ppf 95 - 196/100| ≤ 1/1000 ∧
    withinTol (1/1000)
      (([1/2, -3/10, 4/5] : List ℚ).zipWith
        (fun c e => c - getZScorePrecise ppf 95 * e) [1/10, 3/20, 3/25])
      [304/1000, -594/1000, 565/1000] = true ∧
    withinTol (1/1000)
      (([1/2, -3/10, 4/5] : List ℚ).zipWith
        (fun c e => c + getZScorePrecise ppf 95 * e) [1/10, 3/20, 3/25])
      [696/1000, -6/1000, 1035/1000] = true := by
  have h95 : getZScorePrecise ppf 95 = ppf (39/40) := by
    unfold getZScorePrecise; norm_num
  obtain ⟨hlo, hhi⟩ := abs_le.mp hz
  refine ⟨fun lvl coefs ses => rfl, h95, by rw [h95]; exact hz, ?_, ?_⟩ <;>
    · rw [h95]
      simp only [withinTol, List.zipWith, List.zip, List.length,
        Bool.and_eq_true, beq_iff_eq, List.all_cons, List.all_nil,
        decide_eq_true_eq, Bool.and_true, and_true]
      refine ⟨trivial, ?_, ?_, ?_⟩ <;> (rw [abs_le]; constructor <;> linarith)

/-- Witness for C1 with the quantile stub that returns 1.96 everywhere. -/
theorem ci_from_ses_c1_witness :
    |(fun _ => (196/100 : ℚ)) (39/40) - 196/100| ≤ 1/1000 ∧
    withinTol (1/1000)
      (([1/2, -3/10, 4/5] : List ℚ).zipWith
        (fun c e => c - getZScorePrecise (fun _ => (196/100 : ℚ)) 95 * e)
        [1/10, 3/20, 3/25])
      [304/1000, -594/1000, 565/1000] = true ∧
    withinTol (1/1000)
      (([1/2, -3/10, 4/5] : List ℚ).zipWith
        (fun c e => c + getZScorePrecise (fun _ => (196/100 : ℚ)) 95 * e)
        [1/10, 3/20, 3/25])
      [696/1000, -6/1000, 1035/1000] = true :=
  ⟨by norm_num,
   (ci_from_ses_c1 (fun _ => 196/100) (by norm_num)).2.2.2.1,
   (ci_from_ses_c1 (fun _ => 196/100) (by norm_num)).2.2.2.2⟩

/-- C2: when ses is omitted and at least one explicit bound is omitted,
plot raises ValueError with the documented message, before any canvas is
created or drawing happens (the error value carries no render output). -/
theorem missing_ses_error_c2 (latexAv horizontal : Bool) (ppf : ℚ → ℚ)
    (ciLevel : ℚ) (coefs : List ℚ) (ciLower ciUpper : Option (List ℚ))
    (labels plotLabels : Option (List (List Char)))
    (title xlabel ylabel : List Char) (xlim : Option (ℚ × ℚ))
    (colors markers ciColors : StyleArg) (markerSize ciWidth : ℚ)
    (ciStyle : String) (zeroLine grid : Bool) (savepath : Option (List Char))
    (showFlag : Bool) (h : ciLower = none ∨ ciUpper = none) :
    plot latexAv horizontal ppf ciLevel coefs none ciLower ciUpper labels
      plotLabels title xlabel ylabel xlim colors markers ciColors markerSize
      ciWidth ciStyle zeroLine grid savepath showFlag =
      Except.error "Must provide either (ci_lower, ci_upper) or ses" := by
  have hres : resolveCI ppf ciLevel coefs none ciLower ciUpper =
      Except.error "Must provide either (ci_lower, ci_upper) or ses" := by
    rcases h with rfl | rfl
    · cases ciUpper <;> rfl
    · cases ciLower <;> rfl
  simp [plot, hres]

/-- Witness for C2 with everything else omitted. -/
theorem missing_ses_error_c2_witness :
    plot true true (fun _ => (0:ℚ)) 95 [1/2, -3/10] none none none none none
      [] [] [] none StyleArg.omitted StyleArg.omitted StyleArg.omitted 6
      (3/10) "line" true true none true =
      Except.error "Must provide either (ci_lower, ci_upper) or ses" :=
  missing_ses_error_c2 true true (fun _ => 0) 95 [1/2, -3/10] none none none
    none [] [] [] none StyleArg.omitted StyleArg.omitted StyleArg.omitted 6
    (3/10) "line" true true none true (Or.inl rfl)

/-- C10: when ses is supplied together with exactly one explicit bound,
plot recomputes both bounds from ses, silently ignoring the supplied bound:
the call does not fail, the resolved bounds do not mention the supplied
bound, and the overall result coincides with the call that omits it. -/
theorem ignored_partial_bound_c10 (latexAv horizontal : Bool) (ppf : ℚ → ℚ)
    (ciLevel : ℚ) (coefs s l u : List ℚ)
    (labels plotLabels : Option (List (List Char)))
    (title xlabel ylabel : List Char) (xlim : Option (ℚ × ℚ))
    (colors markers ciColors : StyleArg) (markerSize ciWidth : ℚ)
    (ciStyle : String) (zeroLine grid : Bool) (savepath : Option (List Char))
    (showFlag : Bool) :
    resolveCI ppf ciLevel coefs (some s) (some l) none =
      Except.ok
        (coefs.zipWith (fun c e => c - getZScorePrecise ppf ciLevel * e) s,
         coefs.zipWith (fun c e => c + getZScorePrecise ppf ciLevel * e) s) ∧
    resolveCI ppf ciLevel coefs (some s) none (some u) =
      Except.ok
        (coefs.zipWith (fun c e => c - getZScorePrecise ppf ciLevel * e) s,
         coefs.zipWith (fun c e => c + getZScorePrecise ppf ciLevel * e) s) ∧
    plot latexAv horizontal ppf ciLevel coefs (some s) (some l) none labels
      plotLabels title xlabel ylabel xlim colors markers ciColors markerSize
      ciWidth ciStyle zeroLine grid savepath showFlag =
    plot latexAv horizontal ppf ciLevel coefs (some s) none none labels
      plotLabels title xlabel ylabel xlim colors markers ciColors markerSize
      ciWidth ciStyle zeroLine grid savepath showFlag ∧
    plot latexAv horizontal ppf ciLevel coefs (some s) none (some u) labels
      plotLabels title xlabel ylabel xlim colors markers ciColors markerSize
      ciWidth ciStyle zeroLine grid savepath showFlag =
    plot latexAv horizontal ppf ciLevel coefs (some s) none none labels
      plotLabels title xlabel ylabel xlim colors markers ciColors markerSize
      ciWidth ciStyle zeroLine grid savepath showFlag :=
  ⟨rfl, rfl, rfl, rfl⟩

/-- Python str.split on a character produces one more chunk than there are
occurrences of the character. -/
theorem splitOnChar_length (c : Char) (s : List Char) :
    (splitOnChar c s).length = s.count c + 1 := by
  induction s with
  | nil => simp [splitOnChar]
  | cons x xs ih =>
    simp only [splitOnChar]
    by_cases hx : x = c
    · subst hx
      simp [List.count_cons, ih]
    · rcases hr : splitOnChar c xs with _ | ⟨ys, rest⟩
      · rw [hr] at ih; simp at ih
      · rw [hr] at ih
        simp only [List.length_cons] at ih
        simp [hx, List.count_cons, Ne.symm hx]
        omega

/-- C4 counterexample: the label a^b_c contains exactly one underscore but
also the further special character caret, and the formatter still rewrites
it to the math-mode subscript form, contrary to the claim that subscripting
requires the absence of other special characters. -/
theorem label_subscript_c4_counterexample :
    formatLatexLabel true ("a^b_c".toList) = ("$a^b_\x7bc\x7d$").toList ∧
    ("a^b_c".toList).count '_' = 1 ∧
    '^' ∈ "a^b_c".toList ∧ '^' ≠ '_' ∧ '^' ∈ escapeChars := by
  refine ⟨by decide, by decide, by decide, by decide, by decide⟩

/-- C4 amended: with math rendering available, on a nonempty label that is
not already dollar-delimited, the formatter produces the math-mode
subscript exactly when the label contains exactly one underscore and does
not start with a dollar, splitting on that underscore regardless of any
other special characters; labels whose underscore count differs from one
(in particular two or more underscores) fall through to character
escaping, not subscripting. -/
theorem label_subscript_c4_amended :
    (∀ s : List Char, s ≠ [] →
      (startsWithCh '$' (pyStrip s) && endsWithCh '$' (pyStrip s)) = false →
      startsWithCh '$' s = false →
      s.count '_' = 1 →
      formatLatexLabel true s = subscriptJoin (splitOnChar '_' s)) ∧
    (∀ s : List Char, s ≠ [] →
      (startsWithCh '$' (pyStrip s) && endsWithCh '$' (pyStrip s)) = false →
      s.count '_' ≠ 1 →
      formatLatexLabel true s = escapeSpecials s) := by
  constructor
  · intro s hne hwrap hstart hcount
    have hlen : (splitOnChar '_' s).length = 2 := by
      rw [splitOnChar_length, hcount]
    have hmem : '_' ∈ s := by
      have hpos : 0 < s.count '_' := by omega
      exact List.count_pos_iff.mp hpos
    have hany : s.any (fun c => decide (c ∈ mathSpecials)) = true := by
      simp only [List.any_eq_true, decide_eq_true_eq]
      exact ⟨'_', hmem, by decide⟩
    have hcont : s.contains '_' = true := by
      simpa using hmem
    rcases hsp : splitOnChar '_' s with _ | ⟨p0, _ | ⟨p1, _ | ⟨p2, rest⟩⟩⟩ <;>
      rw [hsp] at hlen <;> simp at hlen
    unfold formatLatexLabel
    rw [if_neg hne]
    simp only [Bool.not_true, hwrap, hsp, hany, hcont, hstart,
      Bool.true_and, Bool.not_false, Bool.and_true, if_false]
    rw [subscriptJoin]
    simp
  · intro s hne hwrap hcount
    have hlen : (splitOnChar '_' s).length ≠ 2 := by
      rw [splitOnChar_length]; omega
    unfold formatLatexLabel
    rw [if_neg hne]
    simp only [Bool.not_true, hwrap, if_false]
    rcases hsp : splitOnChar '_' s with _ | ⟨p0, _ | ⟨p1, _ | ⟨p2, rest⟩⟩⟩ <;>
      rw [hsp] at hlen <;> try simp at hlen
    all_goals
      cases hb : (s.any (fun c => decide (c ∈ mathSpecials)) && s.contains '_' &&
          !startsWithCh '$' s) <;> rfl

/-- Witness for the amended C4: post_treated is subscripted, a_b_c falls
through to escaping. -/
theorem label_subscript_c4_amended_witness :
    formatLatexLabel true ("post_treated".toList) =
      subscriptJoin (splitOnChar '_' ("post_treated".toList)) ∧
    formatLatexLabel true ("a_b_c".toList) = escapeSpecials ("a_b_c".toList) :=
  ⟨label_subscript_c4_amended.1 ("post_treated".toList) (by decide) (by decide)
      (by decide) (by decide),
   label_subscript_c4_amended.2 ("a_b_c".toList) (by decide) (by decide)
      (by decide)⟩

/-- Length of a truncating three-way zip. -/
theorem zip3_length {α β γ : Type} :
    ∀ (as : List α) (bs : List β) (cs : List γ),
      (zip3 as bs cs).length = min as.length (min bs.length cs.length) := by
  intro as
  induction as with
  | nil => intro bs cs; simp [zip3]
  | cons a as ih =>
    intro bs cs
    cases bs with
    | nil => simp [zip3]
    | cons b bs =>
      cases cs with
      | nil => simp [zip3]
      | cons c cs =>
        simp only [zip3, List.length_cons, ih]
        omega

/-- Length of a truncating four-way zip. -/
theorem zip4_length {α β γ δ : Type} :
    ∀ (as : List α) (bs : List β) (cs : List γ) (ds : List δ),
      (zip4 as bs cs ds).length =
        min (min as.length bs.length) (min cs.length ds.length) := by
  intro as
  induction as with
  | nil => intro bs cs ds; simp [zip4]
  | cons a as ih =>
    intro bs cs ds
    cases bs with
    | nil => simp [zip4]
    | cons b bs =>
      cases cs with
      | nil => simp [zip4]
      | cons c cs =>
        cases ds with
        | nil => simp [zip4]
        | cons d ds =>
          simp only [zip4, List.length_cons, ih]
          omega

/-- A ci-color sequence shorter than the records still to be visited makes
the line-style loop of _plot_horizontal raise IndexError. -/
theorem ciLineLoopH_short (cs : List String) (w : ℚ) :
    ∀ (triples : List (ℚ × ℚ × ℚ)) (i : Nat),
      cs.length < i + triples.length → i ≤ cs.length →
      ciLineLoopH (CiColorsR.seq cs) w i triples =
        Except.error "list index out of range" := by
  intro triples
  induction triples with
  | nil => intro i h1 h2; simp only [List.length_nil] at h1; omega
  | cons t rest ih =>
    intro i h1 h2
    simp only [List.length_cons] at h1
    obtain ⟨y, ll, ul⟩ := t
    by_cases hi : i < cs.length
    · have hrec := ih (i + 1) (by omega) (by omega)
      simp [ciLineLoopH, ciColorAt, dif_pos hi, hrec]
    · simp [ciLineLoopH, ciColorAt, dif_neg hi]

/-- C3 counterexample: three records with an explicitly supplied marker
sequence of length two render without any error, and the paired iteration
silently draws only two point markers — no DimensionMismatch is raised. -/
theorem style_length_c3_counterexample :
    exceptOk (plotSingle true true [0, 1, 2] [0, 0, 1] [1, 2, 3]
      [['a'], ['b'], ['c']] [] [] [] none StyleArg.omitted
      (StyleArg.seq ["o", "s"]) StyleArg.omitted 6 1 "line" true true
      none false) = true ∧
    markersOf (plotSingle true true [0, 1, 2] [0, 0, 1] [1, 2, 3]
      [['a'], ['b'], ['c']] [] [] [] none StyleArg.omitted
      (StyleArg.seq ["o", "s"]) StyleArg.omitted 6 1 "line" true true
      none false) = some 2 ∧
    ([(0:ℚ), 1, 2] : List ℚ).length = 3 := by
  refine ⟨by decide, by decide, by decide⟩

/-- C3 amended: a ci-color sequence shorter than the record count makes the
single-group engine fail with IndexError (message "list index out of
range", not a ValueError about style lengths); short color or marker
sequences do not fail at all — the marker loop silently truncates to the
shortest sequence. -/
theorem style_length_c3_amended :
    (∀ (cs : List String) (w : ℚ) (triples : List (ℚ × ℚ × ℚ)),
      cs.length < triples.length →
      ciLineLoopH (CiColorsR.seq cs) w 0 triples =
        Except.error "list index out of range") ∧
    (∀ (yPos coefs : List ℚ) (colors markers : List String) (ms : ℚ),
      (markerLoopH ms (zip4 yPos coefs colors markers)).length =
        min (min yPos.length coefs.length)
            (min colors.length markers.length)) ∧
    (∀ (latexAv : Bool) (coefs ciL ciU : List ℚ) (labels : List (List Char))
        (title xlabel ylabel : List Char) (xlim : Option (ℚ × ℚ))
        (colors markers : StyleArg) (cs : List String) (ms w : ℚ)
        (zl gr : Bool) (sp : Option (List Char)) (sf : Bool),
      ciL.length = coefs.length → ciU.length = coefs.length →
      cs.length < coefs.length →
      plotSingle latexAv true coefs ciL ciU labels title xlabel ylabel xlim
        colors markers (StyleArg.seq cs) ms w "line" zl gr sp sf =
        Except.error "list index out of range") := by
  refine ⟨fun cs w triples h =>
      ciLineLoopH_short cs w triples 0 (by omega) (by omega), ?_, ?_⟩
  · intro yPos coefs colors markers ms
    simp [markerLoopH, zip4_length]
  · intro latexAv coefs ciL ciU labels title xlabel ylabel xlim colors
      markers cs ms w zl gr sp sf h1 h2 h3
    have hz : (zip3 (arangeQ coefs.length) ciL ciU).length = coefs.length := by
      rw [zip3_length, arangeQ, List.length_map, List.length_range, h1, h2]
      omega
    have herr := ciLineLoopH_short cs w
      (zip3 (arangeQ coefs.length) ciL ciU) 0 (by omega) (by omega)
    simp [plotSingle, plotHorizontal, plotHorizontalCore,
      resolveStylesSingle, herr]

/-- Witness for the amended C3. -/
theorem style_length_c3_amended_witness :
    ciLineLoopH (CiColorsR.seq ["r"]) 1 0 [(0, 0, 1), (1, 0, 1)] =
      Except.error "list index out of range" ∧
    (markerLoopH 6 (zip4 [(0:ℚ), 1, 2] [(5:ℚ), 6, 7] ["a", "b", "c"]
        ["o", "s"])).length =
      min (min 3 3) (min 3 2) ∧
    plotSingle true true [(0:ℚ), 1, 2] [0, 0, 1] [1, 2, 3]
      [['a'], ['b'], ['c']] [] [] [] none StyleArg.omitted StyleArg.omitted
      (StyleArg.seq ["r", "g"]) 6 1 "line" true true none false =
      Except.error "list index out of range" :=
  ⟨style_length_c3_amended.1 ["r"] 1 [(0, 0, 1), (1, 0, 1)] (by decide),
   style_length_c3_amended.2.1 [0, 1, 2] [5, 6, 7] ["a", "b", "c"] ["o", "s"] 6,
   style_length_c3_amended.2.2 true [0, 1, 2] [0, 0, 1] [1, 2, 3]
     [['a'], ['b'], ['c']] [] [] [] none StyleArg.omitted StyleArg.omitted
     ["r", "g"] 6 1 true true none false rfl rfl (by decide)⟩

/-- C9 counterexample: with show at its default True, _plot_single
completes normally, never calls plt.close, and the canvas survives the
call. -/
theorem fig_lifecycle_c9_counterexample :
    exceptOk (plotSingle true true [1] [0] [2] [['a']] [] [] [] none
      StyleArg.omitted StyleArg.omitted StyleArg.omitted 6 1 "line" true
      true none true) = true ∧
    figClosedOf (plotSingle true true [1] [0] [2] [['a']] [] [] [] none
      StyleArg.omitted StyleArg.omitted StyleArg.omitted 6 1 "line" true
      true none true) = false := by
  refine ⟨by decide, by decide⟩

/-- C9 amended: the canvas is released exactly on the exit path that both
completes drawing and has show=False; when show is True, or when an
exception escapes during drawing, plt.close never runs, so the figure
outlives the call (it also stays referenced by self.fig).  _plot_multiple
closes its figure under the same show=False condition. -/
theorem fig_lifecycle_c9_amended (latexAv horizontal : Bool)
    (coefs ciL ciU : List ℚ) (labels : List (List Char))
    (title xlabel ylabel : List Char) (xlim : Option (ℚ × ℚ))
    (colors markers ciColors : StyleArg) (markerSize ciWidth : ℚ)
    (ciStyle : String) (zeroLine grid : Bool) (savepath : Option (List Char))
    (showFlag : Bool) (coefsM ciLM ciUM : List ℚ)
    (labelsM pls : List (List Char)) :
    figClosedOf (plotSingle latexAv horizontal coefs ciL ciU labels title
        xlabel ylabel xlim colors markers ciColors markerSize ciWidth
        ciStyle zeroLine grid savepath showFlag) =
      (exceptOk (plotSingle latexAv horizontal coefs ciL ciU labels title
        xlabel ylabel xlim colors markers ciColors markerSize ciWidth
        ciStyle zeroLine grid savepath showFlag) && !showFlag) ∧
    (plotMultiple latexAv horizontal coefsM ciLM ciUM labelsM pls title
        xlabel ylabel xlim colors markers ciColors markerSize ciWidth
        ciStyle zeroLine grid savepath showFlag).figClosed = !showFlag := by
  refine ⟨?_, rfl⟩
  simp only [plotSingle]
  split
  · simp [figClosedOf, exceptOk]
  · simp [figClosedOf, exceptOk]

/-- Sorted deduplication is sorted strictly in the lexicographic order. -/
theorem sortUnique_sorted (l : List (List Char)) :
    List.Sorted (· < ·) (sortUnique l) := by
  have hs : List.Sorted (· ≤ ·) (sortUnique l) :=
    List.sorted_insertionSort (· ≤ ·) l.dedup
  have hn : (sortUnique l).Nodup :=
    ((List.perm_insertionSort (· ≤ ·) l.dedup).nodup_iff).mpr l.nodup_dedup
  exact hs.lt_of_le hn

/-- Sorted deduplication contains no duplicates. -/
theorem sortUnique_nodup (l : List (List Char)) : (sortUnique l).Nodup :=
  ((List.perm_insertionSort (· ≤ ·) l.dedup).nodup_iff).mpr l.nodup_dedup

/-- Sorted deduplication preserves membership. -/
theorem mem_sortUnique (l : List (List Char)) (g : List Char) :
    g ∈ sortUnique l ↔ g ∈ l := by
  rw [sortUnique, (List.perm_insertionSort (· ≤ ·) l.dedup).mem_iff,
    List.mem_dedup]

/-- The panels produced by the enumerate loop carry the group labels in
order. -/
theorem panelsFrom_map_group (f : Nat → List Char → Panel)
    (hf : ∀ i g, (f i g).group = g) :
    ∀ (i : Nat) (gs : List (List Char)),
      (panelsFrom f i gs).map Panel.group = gs := by
  intro i gs
  induction gs generalizing i with
  | nil => rfl
  | cons g gs ih => simp [panelsFrom, hf, ih]

/-- A panel field that does not depend on the loop index maps to a
constant over the panel row. -/
theorem panelsFrom_map_const {β : Type} (f : Nat → List Char → Panel)
    (proj : Panel → β) (v : β) (hf : ∀ i g, proj (f i g) = v) :
    ∀ (i : Nat) (gs : List (List Char)),
      (panelsFrom f i gs).map proj = List.replicate gs.length v := by
  intro i gs
  induction gs generalizing i with
  | nil => rfl
  | cons g gs ih => simp [panelsFrom, hf, ih, List.replicate_succ]

/-- A panel field depending only on the group maps like the group list. -/
theorem panelsFrom_map_of_group {β : Type} (f : Nat → List Char → Panel)
    (proj : Panel → β) (v : List Char → β)
    (hf : ∀ i g, proj (f i g) = v g) :
    ∀ (i : Nat) (gs : List (List Char)),
      (panelsFrom f i gs).map proj = gs.map v := by
  intro i gs
  induction gs generalizing i with
  | nil => rfl
  | cons g gs ih => simp [panelsFrom, hf, ih]

/-- Starting the enumerate loop at a positive index, a field set only at
index zero is absent from every panel. -/
theorem panelsFrom_map_pos (f : Nat → List Char → Panel)
    (proj : Panel → Option (List Char))
    (hf : ∀ i g, 0 < i → proj (f i g) = none) :
    ∀ (gs : List (List Char)) (i : Nat), 0 < i →
      (panelsFrom f i gs).map proj = List.replicate gs.length none := by
  intro gs
  induction gs with
  | nil => intro i hi; rfl
  | cons g gs ih =>
    intro i hi
    simp [panelsFrom, hf i g hi, ih (i + 1) (by omega), List.replicate_succ]

/-- C5: the multi-group engine partitions by the sorted set of distinct
group labels (np.unique), and with more than one distinct group it lays
out one sub-panel per distinct group in a single row, in that sorted
order; sortedness is strict lexicographic order and membership matches the
supplied labels. -/
theorem multi_group_partition_c5 (latexAv horizontal : Bool)
    (coefs ciL ciU : List ℚ) (labels pls : List (List Char))
    (title xlabel ylabel : List Char) (xlim : Option (ℚ × ℚ))
    (colors markers ciColors : StyleArg) (markerSize ciWidth : ℚ)
    (ciStyle : String) (zeroLine grid : Bool) (savepath : Option (List Char))
    (showFlag : Bool) (h : 1 < (sortUnique pls).length) :
    (plotMultiple latexAv horizontal coefs ciL ciU labels pls title xlabel
        ylabel xlim colors markers ciColors markerSize ciWidth ciStyle
        zeroLine grid savepath showFlag).grid =
      (1, (sortUnique pls).length) ∧
    (plotMultiple latexAv horizontal coefs ciL ciU labels pls title xlabel
        ylabel xlim colors markers ciColors markerSize ciWidth ciStyle
        zeroLine grid savepath showFlag).panels.map Panel.group =
      sortUnique pls ∧
    List.Sorted (· < ·) (sortUnique pls) ∧
    (sortUnique pls).Nodup ∧
    (∀ g, g ∈ sortUnique pls ↔ g ∈ pls) := by
  refine ⟨?_, ?_, sortUnique_sorted pls, sortUnique_nodup pls,
    fun g => mem_sortUnique pls g⟩
  · simp [plotMultiple, if_pos h]
  · exact panelsFrom_map_group _ (fun i g => rfl) 0 (sortUnique pls)

/-- Witness for C5 on three out-of-order group labels. -/
theorem multi_group_partition_c5_witness :
    (plotMultiple true true [1, 2, 3] [0, 1, 2] [2, 3, 4]
        [['a'], ['b'], ['c']] ["M2".toList, "M1".toList, "M3".toList] [] []
        [] none StyleArg.omitted StyleArg.omitted StyleArg.omitted 6 1
        "line" true true none false).grid =
      (1, (sortUnique ["M2".toList, "M1".toList, "M3".toList]).length) ∧
    (plotMultiple true true [1, 2, 3] [0, 1, 2] [2, 3, 4]
        [['a'], ['b'], ['c']] ["M2".toList, "M1".toList, "M3".toList] [] []
        [] none StyleArg.omitted StyleArg.omitted StyleArg.omitted 6 1
        "line" true true none false).panels.map Panel.group =
      sortUnique ["M2".toList, "M1".toList, "M3".toList] ∧
    List.Sorted (· < ·) (sortUnique ["M2".toList, "M1".toList, "M3".toList]) ∧
    (sortUnique ["M2".toList, "M1".toList, "M3".toList]).Nodup ∧
    (∀ g, g ∈ sortUnique ["M2".toList, "M1".toList, "M3".toList] ↔
      g ∈ ["M2".toList, "M1".toList, "M3".toList]) :=
  multi_group_partition_c5 true true [1, 2, 3] [0, 1, 2] [2, 3, 4]
    [['a'], ['b'], ['c']] ["M2".toList, "M1".toList, "M3".toList] [] [] []
    none StyleArg.omitted StyleArg.omitted StyleArg.omitted 6 1 "line" true
    true none false (by decide)

/-- C6 counterexample: in horizontal orientation the value axis is the
x-axis, and _plot_multiple sets the x-axis label on every sub-canvas, not
only on the first: a two-group horizontal render carries the value-axis
caption on both panels. -/
theorem multi_axis_labels_c6_counterexample :
    ((plotMultiple true true [1, 2] [0, 1] [2, 3] [['a'], ['b']]
        ["A".toList, "B".toList] [] [] [] none StyleArg.omitted
        StyleArg.omitted StyleArg.omitted 6 1 "line" true true none
        false).panels.map Panel.xlabelSet) =
      [some coefCaption, some coefCaption] ∧
    ((plotMultiple true true [1, 2] [0, 1] [2, 3] [['a'], ['b']]
        ["A".toList, "B".toList] [] [] [] none StyleArg.omitted
        StyleArg.omitted StyleArg.omitted 6 1 "line" true true none
        false).panels.length) = 2 := by
  refine ⟨by decide, by decide⟩

/-- C6 amended: across both orientations it is the y-axis label that is set
only on the first sub-canvas — the value axis only in vertical orientation;
in horizontal orientation the value-axis (x) label is set on every
sub-canvas.  Per-panel titles are "title - group" when a title is
supplied and just the group name otherwise. -/
theorem multi_axis_labels_c6_amended (latexAv horizontal : Bool)
    (coefs ciL ciU : List ℚ) (labels pls : List (List Char))
    (title xlabel ylabel : List Char) (xlim : Option (ℚ × ℚ))
    (colors markers ciColors : StyleArg) (markerSize ciWidth : ℚ)
    (ciStyle : String) (zeroLine grid : Bool) (savepath : Option (List Char))
    (showFlag : Bool) (h : 1 < (sortUnique pls).length) :
    (plotMultiple latexAv horizontal coefs ciL ciU labels pls title xlabel
        ylabel xlim colors markers ciColors markerSize ciWidth ciStyle
        zeroLine grid savepath showFlag).panels.map Panel.ylabelSet =
      some (formatLatexLabel latexAv
        (if horizontal then ylabel
         else (if ylabel = [] then coefCaption else ylabel))) ::
      List.replicate ((sortUnique pls).length - 1) none ∧
    (plotMultiple latexAv horizontal coefs ciL ciU labels pls title xlabel
        ylabel xlim colors markers ciColors markerSize ciWidth ciStyle
        zeroLine grid savepath showFlag).panels.map Panel.xlabelSet =
      List.replicate (sortUnique pls).length
        (some (formatLatexLabel latexAv
          (if horizontal then (if xlabel = [] then coefCaption else xlabel)
           else xlabel))) ∧
    (plotMultiple latexAv horizontal coefs ciL ciU labels pls title xlabel
        ylabel xlim colors markers ciColors markerSize ciWidth ciStyle
        zeroLine grid savepath showFlag).panels.map Panel.titleSet =
      (sortUnique pls).map (fun g =>
        formatLatexLabel latexAv
          (if title = [] then g else title ++ dashSep ++ g)) := by
  refine ⟨?_, ?_, ?_⟩
  · rcases hsu : sortUnique pls with _ | ⟨g, gs⟩
    · rw [hsu] at h; simp at h
    · show (panelsFrom _ 0 (sortUnique pls)).map Panel.ylabelSet = _
      rw [hsu]
      simp only [panelsFrom, List.map_cons, List.length_cons,
        Nat.add_sub_cancel]
      rw [List.cons_eq_cons]
      refine ⟨by simp [buildPanel], ?_⟩
      refine panelsFrom_map_pos _ _ ?_ gs 1 (by omega)
      intro i gg hi
      simp [buildPanel, Nat.pos_iff_ne_zero.mp hi]
  · refine panelsFrom_map_const _ Panel.xlabelSet _ ?_ 0 (sortUnique pls)
    intro i gg
    rfl
  · refine panelsFrom_map_of_group _ Panel.titleSet _ ?_ 0 (sortUnique pls)
    intro i gg
    rfl

/-- Witness for the amended C6 on a two-group vertical render. -/
theorem multi_axis_labels_c6_amended_witness :
    (plotMultiple true false [1, 2] [0, 1] [2, 3] [['a'], ['b']]
        ["A".toList, "B".toList] "T".toList [] [] none StyleArg.omitted
        StyleArg.omitted StyleArg.omitted 6 1 "line" true true none
        false).panels.map Panel.ylabelSet =
      some (formatLatexLabel true
        (if false = true then []
         else (if ([] : List Char) = [] then coefCaption else []))) ::
      List.replicate
        ((sortUnique ["A".toList, "B".toList]).length - 1) none ∧
    (plotMultiple true false [1, 2] [0, 1] [2, 3] [['a'], ['b']]
        ["A".toList, "B".toList] "T".toList [] [] none StyleArg.omitted
        StyleArg.omitted StyleArg.omitted 6 1 "line" true true none
        false).panels.map Panel.xlabelSet =
      List.replicate (sortUnique ["A".toList, "B".toList]).length
        (some (formatLatexLabel true
          (if false = true then (if ([] : List Char) = [] then coefCaption else [])
           else []))) ∧
    (plotMultiple true false [1, 2] [0, 1] [2, 3] [['a'], ['b']]
        ["A".toList, "B".toList] "T".toList [] [] none StyleArg.omitted
        StyleArg.omitted StyleArg.omitted 6 1 "line" true true none
        false).panels.map Panel.titleSet =
      (sortUnique ["A".toList, "B".toList]).map (fun g =>
        formatLatexLabel true
          (if "T".toList = [] then g else "T".toList ++ dashSep ++ g)) :=
  multi_axis_labels_c6_amended true false [1, 2] [0, 1] [2, 3]
    [['a'], ['b']] ["A".toList, "B".toList] "T".toList [] [] none
    StyleArg.omitted StyleArg.omitted StyleArg.omitted 6 1 "line" true true
    none false (by decide)

end CoefPlot
